import Mathlib

/-!
Shallow embedding of `whitebox/utils/utils.py` (model-describer).
Pandas dataframes are modelled column-wise over a `Cell` scalar type;
Python exceptions become an `Err` inductive returned through `Except`.
-/

/-- A scalar value held in a dataframe cell.  Python `None`/`NaN` is `null`;
ints and floats are kept apart because the source distinguishes them
(`float(group.shape[0])`); `sqrtNum q` is the exact value of the Python
float expression `q ** (1/2)`, which is irrational in general and hence
kept symbolic rather than collapsed into `ℚ`. -/
inductive Cell
  | null
  | int (z : ℤ)
  | num (q : ℚ)
  | str (s : String)
  | sqrtNum (q : ℚ)
deriving DecidableEq, Repr

/-- Numeric reading of a cell, as used by the numpy arithmetic in
`create_insights`.  `null` (NaN) and strings are not given a faithful
reading here; every theorem below restricts the `errors` column to
genuine numbers, where this reading is exact. -/
def Cell.toQ : Cell → ℚ
  | .int z => (z : ℚ)
  | .num q => q
  | _ => 0

/-- Real semantics of a cell value (noncomputable only through `Real.sqrt`). -/
noncomputable def Cell.toReal : Cell → ℝ
  | .int z => (z : ℝ)
  | .num q => (q : ℚ)
  | .sqrtNum q => Real.sqrt (q : ℚ)
  | _ => 0

/-- A pandas group value: scalar for a single groupby key, a list
(tuple) for several keys; also models a Python argument that may be a
string or a list of strings, as `group_var=groupby` is in the source. -/
inductive GVar
  | scalar (c : Cell)
  | vlist (cs : List Cell)
deriving DecidableEq, Repr

/-- Column-wise dataframe: named columns of cells, plus the `.name`
attribute pandas sets on the sub-frames handed out by `groupby.apply`. -/
structure DataFrame where
  name : GVar := .scalar .null
  cols : List (String × List Cell)
deriving DecidableEq, Repr

/-- `df.shape[0]`: the row count (length of the first column; all columns
of a real pandas frame have equal length). -/
def DataFrame.shape0 (df : DataFrame) : Nat :=
  match df.cols with
  | [] => 0
  | p :: _ => p.2.length

def DataFrame.colNames (df : DataFrame) : List String :=
  df.cols.map Prod.fst

/-- `df[c]`: column lookup, `none` when pandas would raise `KeyError`. -/
def DataFrame.getCol (df : DataFrame) (c : String) : Option (List Cell) :=
  (df.cols.find? (fun p => p.1 = c)).map Prod.snd

/-- Rectangularity: every column has the frame's row count. -/
def DataFrame.WF (df : DataFrame) : Prop :=
  ∀ p ∈ df.cols, p.2.length = df.shape0

instance (df : DataFrame) : Decidable df.WF := by
  unfold DataFrame.WF; infer_instance

/-- The Python exceptions the source can raise. -/
inductive Err
  | assertionError (msg : String)
  | keyError (key : String)
  | typeError (msg : String)
  | valueError (msg : String)
  | indexError (msg : String)
deriving DecidableEq, Repr

/-- `str(exception)`: for a `KeyError` the message is the missing key. -/
def Err.text : Err → String
  | .assertionError m => m
  | .keyError k => k
  | .typeError m => m
  | .valueError m => m
  | .indexError m => m

/-- `Settings.supported_agg_errors` (utils.py line 17). -/
def supported_agg_errors : List String := ["MSE", "MAE", "RMSE", "RAW"]

/-- `ErrorWarningMsgs.groupbyvars_error` (utils.py lines 25-27),
whitespace normalised to one line. -/
def groupbyvars_error : Err :=
  .valueError "groupbyvars must be a list of grouping variables and cannot be None"

/-- `ErrorWarningMsgs.error_type_error` (utils.py lines 30-32). -/
def error_type_error : Err :=
  .valueError "Supported values for error_type are [MSE, MAE, RMSE]"

/-- The assertion message of `create_insights` (utils.py lines 107-108),
whitespace normalised to one line. -/
def create_insights_assert_msg : String :=
  "Currently only supports MAE, MSE, RMSE, RAW"

/-- `pd.DataFrame({...: v}, index=[0])` semantics for one dict value: a
scalar broadcasts to the single row, a one-element list fills it, a
longer list raises `ValueError` because its length does not match the
index length 1. -/
def entryCell : GVar → Except Err Cell
  | .scalar c => .ok c
  | .vlist [c] => .ok c
  | .vlist _ => .error (.valueError "Length of values does not match length of index")

/-- `create_insights(group, group_var=None, error_type='MSE')`
(utils.py lines 97-119).  The numpy means divide by the length of the
`errors` column while `MAE` and `Total` use `group.shape[0]`, exactly as
in the source. -/
def create_insights (group : DataFrame) (group_var : GVar := .scalar .null)
    (error_type : String := "MSE") : Except Err DataFrame := do
  if !(["MSE", "RMSE", "MAE", "RAW"].contains error_type) then
    throw (Err.assertionError create_insights_assert_msg)
  let errCells ← match group.getCol "errors" with
    | some l => pure l
    | none => throw (Err.keyError "errors")
  let e := errCells.map Cell.toQ
  let statc : Cell :=
    if error_type = "MSE" then .num ((e.map fun x => x ^ 2).sum / e.length)
    else if error_type = "RMSE" then .sqrtNum ((e.map fun x => x ^ 2).sum / e.length)
    else if error_type = "MAE" then .num ((e.map fun x => |x|).sum / group.shape0)
    else .num (e.sum / e.length)
  let nameCell ← entryCell group.name
  let gvCell ← entryCell group_var
  pure { name := .scalar .null,
         cols := [("groupByValue", [nameCell]),
                  ("groupByVarName", [gvCell]),
                  (error_type, [statc]),
                  ("Total", [Cell.num group.shape0])] }

/-- The statistic cell of a `create_insights` result: the single value of
the column named after the error type. -/
def statCell (r : Except Err DataFrame) (error_type : String) : Option Cell :=
  match r with
  | .ok d => (d.getCol error_type).bind List.head?
  | .error _ => none

/-- A value stored in the JSON-like dict `to_json` builds: a string
(`Type`, `Change`) or a list of row records (`Data`). -/
inductive PVal
  | s (v : String)
  | recs (rs : List (List (String × Cell)))
deriving DecidableEq, Repr

/-- A Python dict as an ordered association list (CPython preserves
insertion order, which the source relies on for key sets). -/
abbrev PyDict := List (String × PVal)

def dictGet : PyDict → String → Option PVal
  | [], _ => none
  | p :: rest, k => if p.1 = k then some p.2 else dictGet rest k

/-- `d[k] = v` for a key already present: replace the bound value. -/
def dictSet : PyDict → String → PVal → PyDict
  | [], _, _ => []
  | p :: rest, k, v => (if p.1 = k then (p.1, v) else p) :: dictSet rest k v

def dictKeys (d : PyDict) : List String := d.map Prod.fst

/-- `dataframe.to_dict(orient='records')`: one ordered dict per row. -/
def DataFrame.toRecords (df : DataFrame) : List (List (String × Cell)) :=
  (List.range df.shape0).map
    (fun i => df.cols.map (fun p => (p.1, p.2.getD i Cell.null)))

/-- Python `round(q, 2)` on an exact rational: round half to even. -/
def round2 (q : ℚ) : ℚ :=
  let m := q * 100
  let f : ℤ := ⌊m⌋
  let r : ℤ :=
    if m - f < 1 / 2 then f
    else if m - f > 1 / 2 then f + 1
    else if 2 ∣ f then f else f + 1
  (r : ℚ) / 100

/-- Python `str(x)` for the values `to_json` stringifies into `Change`.
The decimal rendering of a float is not reproduced digit for digit; no
theorem below inspects this text. -/
def pyStr : Cell → String
  | .null => "None"
  | .int z => toString z
  | .num q => toString q
  | .str s => s
  | .sqrtNum q => toString q

/-- `isinstance(incremental_val, float)`-guarded rounding
(utils.py lines 139-140): ints and `None` pass through unrounded. -/
def roundIfFloat : Cell → Cell
  | .num q => .num (round2 q)
  | c => c

/-- `to_json(dataframe, vartype='Continuous', html_type='error',
incremental_val=None)` (utils.py lines 121-146).  Key insertion order:
`Type`, then `Change` for sensitivity payloads, then `Data`. -/
def to_json (dataframe : DataFrame) (vartype : String := "Continuous")
    (html_type : String := "error") (incremental_val : Cell := .null) :
    Except Err PyDict := do
  if !(["Continuous", "Categorical", "Accuracy", "Percentile"].contains vartype) then
    throw (Err.assertionError
      "Vartypes should only be continuous, categorical, Percentile or accuracy")
  if !(["error", "sensitivity", "percentile"].contains html_type) then
    throw (Err.assertionError "html_type must be error or sensitivity")
  let json_out : PyDict :=
    if html_type = "sensitivity" then
      [("Type", .s vartype), ("Change", .s (pyStr (roundIfFloat incremental_val)))]
    else
      [("Type", .s vartype)]
  pure (json_out ++ [("Data", .recs dataframe.toRecords)])

/-- `copydict[0]['Data'].extend(val['Data'])` for one `val`: look up the
accumulator's `Data` (missing key raises `KeyError`, a string value has
no `extend`), look up `val`'s `Data`, and append. -/
def extendData (acc val : PyDict) : Except Err PyDict :=
  match dictGet acc "Data" with
  | none => .error (.keyError "Data")
  | some (.s _) => .error (.typeError "str object has no attribute extend")
  | some (.recs a) =>
    match dictGet val "Data" with
    | none => .error (.keyError "Data")
    | some (.s _) => .error (.typeError "extend argument is not a list of records")
    | some (.recs b) => .ok (dictSet acc "Data" (.recs (a ++ b)))

def flattenLoop (acc : PyDict) : List PyDict → Except Err PyDict
  | [] => .ok acc
  | v :: vs => do flattenLoop (← extendData acc v) vs

/-- `flatten_json(dictlist)` (utils.py lines 148-173).  `copydict` is a
shallow copy of the list, so extending `copydict[0]['Data']` mutates the
caller's first payload; the returned pair is (returned dict, state of
the input list's elements after the call). -/
def flatten_json (dictlist : List PyDict) : Except Err (PyDict × List PyDict) :=
  match dictlist with
  | [] => .error (.indexError "list index out of range")
  | [d] => .ok (d, [d])
  | d :: rest => (flattenLoop d rest).map (fun r => (r, r :: rest))

/-- Total comparison used where pandas sorts scalar values: numbers by
value, strings lexicographically, `None` first, numbers before strings;
this matches pandas on the homogeneous key columns real frames have. -/
def Cell.rank : Cell → Nat
  | .null => 0
  | .int _ => 1
  | .num _ => 1
  | .sqrtNum _ => 1
  | .str _ => 2

def Cell.leB (a b : Cell) : Bool :=
  if a.rank = b.rank then
    match a, b with
    | .str s, .str t => decide (s ≤ t)
    | _, _ => decide (a.toQ ≤ b.toQ)
  else decide (a.rank < b.rank)

/-- Lexicographic comparison of composite group keys. -/
def keyLe : List Cell → List Cell → Bool
  | [], _ => true
  | _ :: _, [] => false
  | a :: as, b :: bs => if a = b then keyLe as bs else Cell.leB a b

def insertLe {α : Type} (le : α → α → Bool) (x : α) : List α → List α
  | [] => [x]
  | y :: ys => if le x y then x :: y :: ys else y :: insertLe le x ys

def sortLe {α : Type} (le : α → α → Bool) : List α → List α
  | [] => []
  | x :: xs => insertLe le x (sortLe le xs)

/-- A pandas object/category column in our cell model: it holds at least
one string.  (The dtype lattice itself is not modelled; the source first
turns string columns into `category` dtype and then encodes every
`category` column, which coincides with encoding exactly these columns.) -/
def isObjectCol (vs : List Cell) : Bool :=
  vs.any (fun c => match c with | .str _ => true | _ => false)

/-- `pd.Categorical(col).codes`: categories are the distinct non-null
values in sorted order; each value becomes its category index, null
becomes -1.  The codes are integers. -/
def catCodes (vs : List Cell) : List Cell :=
  let cats := sortLe Cell.leB ((vs.filter (fun c => c ≠ Cell.null)).dedup)
  vs.map (fun c => if c = Cell.null then Cell.int (-1)
                   else Cell.int (cats.indexOf c))

/-- `convert_categorical_independent(dataframe)` (utils.py lines 73-94).
Returns (result, warned, state of the caller's frame after the call);
the source deep-copies first, so the input is returned unchanged, and it
warns exactly when no categorical column was detected. -/
def convert_categorical_independent (dataframe : DataFrame) :
    DataFrame × Bool × DataFrame :=
  let res : DataFrame :=
    { name := dataframe.name,
      cols := dataframe.cols.map
        (fun p => (p.1, if isObjectCol p.2 then catCodes p.2 else p.2)) }
  let warned := dataframe.cols.all (fun p => !isObjectCol p.2)
  (res, warned, dataframe)

/-- The groupby argument of `create_accuracy`: Python `None`, a single
column name, or a list of column names. -/
inductive GroupBy
  | none
  | col (s : String)
  | cols (ss : List String)
deriving DecidableEq, Repr

/-- `cat_df.groupby(ks).apply(create_insights, group_var=gvar,
error_type=et)` followed by `reset_index(drop=True)`: group keys are the
sorted distinct non-null key tuples (pandas drops null keys and sorts);
each group is the sub-frame of matching rows carrying its key as
`.name`; results are concatenated column-wise. -/
def concatDF : List DataFrame → DataFrame
  | [] => { name := .scalar .null, cols := [] }
  | d :: ds =>
    { name := .scalar .null,
      cols := d.cols.map
        (fun p => (p.1, p.2 ++ (ds.map (fun e => (e.getCol p.1).getD [])).flatten)) }

def groupApplyInsights (df : DataFrame) (ks : List String) (gvar : GVar)
    (error_type : String) : Except Err DataFrame := do
  match ks.find? (fun k => !(df.colNames.contains k)) with
  | some k => throw (Err.keyError k)
  | none =>
    let kcols := ks.map (fun k => (df.getCol k).getD [])
    let rowKey := fun (i : Nat) => kcols.map (fun vs => vs.getD i Cell.null)
    let allKeys := (List.range df.shape0).map rowKey
    let keys := sortLe keyLe ((allKeys.filter (fun K => !(K.contains Cell.null))).dedup)
    let groups := keys.map (fun K =>
      let idx := (List.range df.shape0).filter (fun i => rowKey i = K)
      ({ name := match K with | [c] => .scalar c | cs => .vlist cs,
         cols := df.cols.map (fun p => (p.1, idx.filterMap (fun i => p.2.get? i))) } :
        DataFrame))
    let insights ← groups.mapM (fun g => create_insights g gvar error_type)
    pure (concatDF insights)

/-- `cat_df.groupby(groupby).apply(create_insights, group_var=groupby,
error_type=error_type)` with `reset_index(drop=True)`, for the three
shapes the groupby argument can take: `None` makes pandas raise
`TypeError`, an empty list `ValueError`, otherwise the keyed apply runs
with the groupby argument itself forwarded as `group_var`. -/
def groupbyDispatch (cat_df : DataFrame) (error_type : String)
    (groupby : GroupBy) : Except Err DataFrame :=
  match groupby with
  | .none => .error (Err.typeError "You have to supply one of by and level")
  | .col s => groupApplyInsights cat_df [s] (.scalar (.str s)) error_type
  | .cols [] => .error (Err.valueError "No group keys passed!")
  | .cols ss => groupApplyInsights cat_df ss (.vlist (ss.map Cell.str)) error_type

/-- `create_accuracy(model_type, cat_df, error_type, groupby=None)`
(utils.py lines 309-330).  Classification forces `error_type = 'RAW'`
before grouping; the function has no groupby validation of its own and
never raises `ErrorWarningMsgs.groupbyvars_error`. -/
def create_accuracy (model_type : String) (cat_df : DataFrame)
    (error_type : String) (groupby : GroupBy := .none) : Except Err DataFrame :=
  groupbyDispatch cat_df
    (if model_type = "classification" then "RAW" else error_type) groupby

/-- The `Data` records of a payload (empty when absent or not records). -/
def getData (d : PyDict) : List (List (String × Cell)) :=
  match dictGet d "Data" with
  | some (.recs rs) => rs
  | _ => []

/-! ## Helper lemmas -/

lemma getCol_length (df : DataFrame) (c : String) (l : List Cell)
    (hwf : df.WF) (h : df.getCol c = some l) : l.length = df.shape0 := by
  unfold DataFrame.getCol at h
  cases hfind : df.cols.find? (fun p => p.1 = c) with
  | none => simp [hfind] at h
  | some p =>
    simp [hfind] at h
    subst h
    exact hwf p (List.mem_of_find?_eq_some hfind)

/-- Symbolic evaluation of `create_insights` on a group that has an
`errors` column, a scalar name and a scalar grouping variable, for any
supported error type. -/
lemma create_insights_eval (df : DataFrame) (nc gc : Cell) (et : String)
    (l : List Cell)
    (hname : df.name = .scalar nc)
    (he : df.getCol "errors" = some l)
    (het : (["MSE", "RMSE", "MAE", "RAW"].contains et) = true) :
    create_insights df (.scalar gc) et = .ok
      { name := .scalar .null,
        cols := [("groupByValue", [nc]),
                 ("groupByVarName", [gc]),
                 (et, [if et = "MSE" then
                         .num (((l.map Cell.toQ).map fun x => x ^ 2).sum / l.length)
                       else if et = "RMSE" then
                         .sqrtNum (((l.map Cell.toQ).map fun x => x ^ 2).sum / l.length)
                       else if et = "MAE" then
                         .num (((l.map Cell.toQ).map fun x => |x|).sum / df.shape0)
                       else .num ((l.map Cell.toQ).sum / l.length)]),
                 ("Total", [Cell.num df.shape0])] } := by
  simp [create_insights, he, hname, entryCell]
  have h4 : et = "MSE" ∨ et = "RMSE" ∨ et = "MAE" ∨ et = "RAW" := by
    simpa using het
  rcases h4 with h | h | h | h <;> simp [h] <;> rfl

lemma exc_ok_bind {ε α β : Type} (a : α) (f : α → Except ε β) :
    (Except.ok (ε := ε) a >>= f) = f a := rfl

lemma dictGet_dictSet_same (d : PyDict) (k : String) (v w : PVal)
    (h : dictGet d k = some v) : dictGet (dictSet d k w) k = some w := by
  induction d with
  | nil => simp [dictGet] at h
  | cons p rest ih =>
    by_cases hpk : p.1 = k
    · simp [dictGet, dictSet, hpk]
    · simp [dictGet, dictSet, hpk] at h ⊢
      exact ih h

lemma dictGet_dictSet_ne (d : PyDict) (k k' : String) (w : PVal)
    (h : k' ≠ k) : dictGet (dictSet d k w) k' = dictGet d k' := by
  induction d with
  | nil => simp [dictGet, dictSet]
  | cons p rest ih =>
    by_cases hpk : p.1 = k
    · simp [dictGet, dictSet, hpk, Ne.symm h, ih]
    · by_cases hpk' : p.1 = k'
      · simp [dictGet, dictSet, hpk, hpk', h]
      · simp [dictGet, dictSet, hpk, hpk', ih]

lemma dictSet_dictSet (d : PyDict) (k : String) (v w : PVal) :
    dictSet (dictSet d k v) k w = dictSet d k w := by
  induction d with
  | nil => rfl
  | cons p rest ih =>
    by_cases hpk : p.1 = k <;> simp [dictSet, hpk, ih]

/-- Symbolic evaluation of the extension loop of `flatten_json`: when the
accumulator and every subsequent payload carry record lists under
`Data`, the loop returns the accumulator with all `Data` lists
concatenated in input order. -/
lemma flattenLoop_eq : ∀ (vs : List PyDict) (acc : PyDict)
    (a : List (List (String × Cell))),
    dictGet acc "Data" = some (.recs a) →
    (∀ d ∈ vs, ∃ bs, dictGet d "Data" = some (PVal.recs bs)) →
    vs ≠ [] →
    flattenLoop acc vs
      = .ok (dictSet acc "Data" (.recs (a ++ (vs.map getData).flatten)))
  | [], _, _, _, _, hne => absurd rfl hne
  | v :: vs, acc, a, hacc, hall, _ => by
    obtain ⟨bs, hv⟩ := hall v (List.mem_cons_self v vs)
    have hext : extendData acc v = .ok (dictSet acc "Data" (.recs (a ++ bs))) := by
      simp [extendData, hacc, hv]
    have hgd : getData v = bs := by simp [getData, hv]
    have hstep : flattenLoop acc (v :: vs)
        = (extendData acc v).bind (fun x => flattenLoop x vs) := rfl
    cases vs with
    | nil =>
      rw [hstep, hext]
      show Except.ok (dictSet acc "Data" (.recs (a ++ bs))) = _
      simp [hgd]
    | cons w ws =>
      have hacc2 : dictGet (dictSet acc "Data" (.recs (a ++ bs))) "Data"
          = some (.recs (a ++ bs)) := dictGet_dictSet_same _ _ _ _ hacc
      have hIH := flattenLoop_eq (w :: ws) (dictSet acc "Data" (.recs (a ++ bs)))
        (a ++ bs) hacc2 (fun d hd => hall d (List.mem_cons_of_mem _ hd)) (by simp)
      rw [hstep, hext]
      show flattenLoop (dictSet acc "Data" (.recs (a ++ bs))) (w :: ws) = _
      rw [hIH, dictSet_dictSet]
      simp [hgd, List.append_assoc]

/-! ## Example data used by witnesses and counterexamples -/

/-- The group frame of the repository's own unit tests: an `errors`
column and a `name` attribute. -/
def dfT : DataFrame :=
  { name := .scalar (.str "testname"),
    cols := [("errors", [.num 0, .num 1, .num 2, .num 3])] }

/-- A frame with no `errors` column. -/
def dfNoErrors : DataFrame :=
  { name := .scalar (.str "testname"),
    cols := [("random", [.num 1, .num 2])] }

/-- A frame with an `errors` column present. -/
def dfWithErrors : DataFrame :=
  { name := .scalar (.str "testname"),
    cols := [("errors", [.num 1, .num 2])] }

/-- A two-group accuracy frame, as in the repository's
`test_create_accuracy_output_shape`. -/
def dfCexAcc : DataFrame :=
  { cols := [("errors", [.num 1, .num 2]), ("col2", [.str "a", .str "b"])] }

/-- An all-numeric frame (no object columns). -/
def dfNumeric : DataFrame :=
  { cols := [("x", [.num 1, .num 2]), ("y", [.int 3, .int 4])] }

def cexP1 : PyDict := [("Type", .s "Continuous"), ("Data", .recs [[("x", .num 1)]])]

def cexP2 : PyDict := [("Type", .s "Continuous"), ("Data", .recs [[("x", .num 2)]])]

/-! ## Claims -/

/-- Claim C1: for every group whose `errors` column holds residual
values `e_1..e_n` (`n > 0`) and every error type in
{MSE, RMSE, MAE, RAW}, `create_insights` computes the statistic as
`MSE = mean(e_i^2)`, `RMSE = sqrt(MSE)` (the `sqrtNum` cell, whose real
value is the square root of the MSE cell's real value),
`MAE = sum(abs(e_i)) / n` and `RAW = mean(e_i)`. -/
theorem create_insights_error_metrics (df : DataFrame) (nc gc : Cell) (e : List ℚ)
    (hname : df.name = .scalar nc)
    (he : df.getCol "errors" = some (e.map Cell.num))
    (hwf : df.WF) (hn : 0 < e.length) :
    statCell (create_insights df (.scalar gc) "MSE") "MSE"
        = some (.num ((e.map fun x => x ^ 2).sum / e.length)) ∧
    statCell (create_insights df (.scalar gc) "RMSE") "RMSE"
        = some (.sqrtNum ((e.map fun x => x ^ 2).sum / e.length)) ∧
    (Cell.sqrtNum ((e.map fun x => x ^ 2).sum / e.length)).toReal
        = Real.sqrt ((Cell.num ((e.map fun x => x ^ 2).sum / e.length)).toReal) ∧
    statCell (create_insights df (.scalar gc) "MAE") "MAE"
        = some (.num ((e.map fun x => |x|).sum / e.length)) ∧
    statCell (create_insights df (.scalar gc) "RAW") "RAW"
        = some (.num (e.sum / e.length)) := by
  have hs : df.shape0 = e.length := by
    have h := getCol_length df "errors" (e.map Cell.num) hwf he
    simpa using h.symm
  refine ⟨?_, ?_, ?_, ?_, ?_⟩
  · rw [create_insights_eval df nc gc "MSE" (e.map Cell.num) hname he (by decide)]
    simp [statCell, DataFrame.getCol, List.map_map, Cell.toQ, Function.comp_def]
  · rw [create_insights_eval df nc gc "RMSE" (e.map Cell.num) hname he (by decide)]
    simp [statCell, DataFrame.getCol, List.map_map, Cell.toQ, Function.comp_def]
  · simp [Cell.toReal]
  · rw [create_insights_eval df nc gc "MAE" (e.map Cell.num) hname he (by decide)]
    simp [statCell, DataFrame.getCol, List.map_map, Cell.toQ, Function.comp_def, hs]
  · rw [create_insights_eval df nc gc "RAW" (e.map Cell.num) hname he (by decide)]
    simp [statCell, DataFrame.getCol, List.map_map, Cell.toQ, Function.comp_def]

/-- The metrics claim at the test frame with errors `0,1,2,3`. -/
theorem create_insights_error_metrics_witness :
    dfT.name = .scalar (.str "testname") ∧
    dfT.getCol "errors" = some (([0, 1, 2, 3] : List ℚ).map Cell.num) ∧
    dfT.WF ∧ 0 < ([0, 1, 2, 3] : List ℚ).length ∧
    (statCell (create_insights dfT (.scalar (.str "groupvar")) "MSE") "MSE"
        = some (.num ((([0, 1, 2, 3] : List ℚ).map fun x => x ^ 2).sum
            / ([0, 1, 2, 3] : List ℚ).length)) ∧
     statCell (create_insights dfT (.scalar (.str "groupvar")) "RMSE") "RMSE"
        = some (.sqrtNum ((([0, 1, 2, 3] : List ℚ).map fun x => x ^ 2).sum
            / ([0, 1, 2, 3] : List ℚ).length)) ∧
     (Cell.sqrtNum ((([0, 1, 2, 3] : List ℚ).map fun x => x ^ 2).sum
            / ([0, 1, 2, 3] : List ℚ).length)).toReal
        = Real.sqrt ((Cell.num ((([0, 1, 2, 3] : List ℚ).map fun x => x ^ 2).sum
            / ([0, 1, 2, 3] : List ℚ).length)).toReal) ∧
     statCell (create_insights dfT (.scalar (.str "groupvar")) "MAE") "MAE"
        = some (.num ((([0, 1, 2, 3] : List ℚ).map fun x => |x|).sum
            / ([0, 1, 2, 3] : List ℚ).length)) ∧
     statCell (create_insights dfT (.scalar (.str "groupvar")) "RAW") "RAW"
        = some (.num (([0, 1, 2, 3] : List ℚ).sum / ([0, 1, 2, 3] : List ℚ).length))) :=
  ⟨rfl, by decide, by decide, by decide,
   create_insights_error_metrics dfT (.str "testname") (.str "groupvar")
     [0, 1, 2, 3] rfl (by decide) (by decide) (by decide)⟩

/-- Claim C2: for every non-empty payload sequence (whose payloads carry
record lists under `Data`), `flatten_json` returns one payload whose
`Data` is the concatenation of all inputs' `Data` lists in input order
and whose other fields (`Type`, `Change`) equal the first payload's; a
single-element sequence is returned unchanged. -/
theorem flatten_json_concatenates (p : PyDict) (ps : List PyDict)
    (a : List (List (String × Cell)))
    (hp : dictGet p "Data" = some (.recs a))
    (hps : ∀ d ∈ ps, ∃ bs, dictGet d "Data" = some (PVal.recs bs)) :
    flatten_json [p] = .ok (p, [p]) ∧
    (ps ≠ [] → ∃ r, flatten_json (p :: ps) = .ok (r, r :: ps) ∧
       r = dictSet p "Data" (.recs (a ++ (ps.map getData).flatten)) ∧
       dictGet r "Data" = some (.recs (a ++ (ps.map getData).flatten)) ∧
       dictGet r "Type" = dictGet p "Type" ∧
       dictGet r "Change" = dictGet p "Change") := by
  refine ⟨rfl, ?_⟩
  intro hne
  cases ps with
  | nil => exact absurd rfl hne
  | cons q qs =>
    have hloop := flattenLoop_eq (q :: qs) p a hp hps (by simp)
    refine ⟨_, ?_, rfl, ?_, ?_, ?_⟩
    · show (flattenLoop p (q :: qs)).map (fun r => (r, r :: q :: qs)) = _
      rw [hloop]
      rfl
    · exact dictGet_dictSet_same _ _ _ _ hp
    · exact dictGet_dictSet_ne _ _ _ _ (by decide)
    · exact dictGet_dictSet_ne _ _ _ _ (by decide)

/-- The flatten claim at two concrete one-record payloads. -/
theorem flatten_json_concatenates_witness :
    flatten_json [cexP1] = .ok (cexP1, [cexP1]) ∧
    ([cexP2] ≠ [] → ∃ r, flatten_json (cexP1 :: [cexP2]) = .ok (r, r :: [cexP2]) ∧
       r = dictSet cexP1 "Data"
         (.recs ([[("x", .num 1)]] ++ ([cexP2].map getData).flatten)) ∧
       dictGet r "Data"
         = some (.recs ([[("x", .num 1)]] ++ ([cexP2].map getData).flatten)) ∧
       dictGet r "Type" = dictGet cexP1 "Type" ∧
       dictGet r "Change" = dictGet cexP1 "Change") :=
  flatten_json_concatenates cexP1 [cexP2] [[("x", .num 1)]] rfl
    (by intro d hd
        simp only [List.mem_singleton] at hd
        subst hd
        exact ⟨[[("x", .num 2)]], rfl⟩)

/-- Claim C3, counterexample: with `groupby=None`, `create_accuracy`
fails with the grouping library's `TypeError`, which is not the
registry's `MissingGroupbyVariable` message
(`ErrorWarningMsgs.groupbyvars_error`). -/
theorem create_accuracy_groupby_none_cex :
    create_accuracy "regression" dfCexAcc "MSE" GroupBy.none
      = .error (.typeError "You have to supply one of by and level") ∧
    Err.typeError "You have to supply one of by and level" ≠ groupbyvars_error ∧
    groupbyvars_error = .valueError
      "groupbyvars must be a list of grouping variables and cannot be None" :=
  ⟨rfl, by decide, rfl⟩

/-- Claim C3, amended: for every dataset and error type,
`create_accuracy` with `groupby` equal to `None` (or an empty list)
always fails — with the grouping library's `TypeError` respectively
`ValueError` rather than the registry's `MissingGroupbyVariable`
message — and never silently aggregates the whole table as one group. -/
theorem create_accuracy_groupby_none_fails (mt : String) (df : DataFrame)
    (et : String) :
    create_accuracy mt df et GroupBy.none
      = .error (.typeError "You have to supply one of by and level") ∧
    create_accuracy mt df et (.cols [])
      = .error (.valueError "No group keys passed!") ∧
    create_accuracy mt df et GroupBy.none ≠ .error groupbyvars_error ∧
    (∀ r, create_accuracy mt df et GroupBy.none ≠ .ok r) := by
  refine ⟨rfl, rfl, ?_, ?_⟩
  · show Except.error (Err.typeError "You have to supply one of by and level") ≠ _
    simp [groupbyvars_error]
  · intro r
    show Except.error (Err.typeError "You have to supply one of by and level") ≠ _
    simp

/-- Claim C4: `create_accuracy` with `model_type = "classification"`
aggregates with `RAW` regardless of the requested error type (so two
different requests agree), and with any other model type it honours the
caller's error type. -/
theorem create_accuracy_classification_forces_raw (df : DataFrame)
    (et et2 mt : String) (gb : GroupBy) :
    create_accuracy "classification" df et gb = groupbyDispatch df "RAW" gb ∧
    create_accuracy "classification" df et gb
      = create_accuracy "classification" df et2 gb ∧
    (mt ≠ "classification" → create_accuracy mt df et gb = groupbyDispatch df et gb) := by
  refine ⟨rfl, rfl, fun h => ?_⟩
  simp [create_accuracy, h]

/-- The error-type policy at a concrete regression call. -/
theorem create_accuracy_classification_forces_raw_witness :
    create_accuracy "regression" dfCexAcc "MSE" (.col "col2")
      = groupbyDispatch dfCexAcc "MSE" (.col "col2") :=
  (create_accuracy_classification_forces_raw dfCexAcc "MSE" "MSE" "regression"
    (.col "col2")).2.2 (by decide)

/-- Claim C5, counterexample: `flatten_json` mutates its first input
payload — after flattening two payloads, the caller's first dict no
longer equals its original value (its `Data` has been extended in
place). -/
theorem flatten_json_mutates_first_input :
    (flatten_json [cexP1, cexP2]).map Prod.snd ≠ .ok [cexP1, cexP2] ∧
    (flatten_json [cexP1, cexP2]).map Prod.snd
      = .ok [[("Type", .s "Continuous"),
              ("Data", .recs [[("x", .num 1)], [("x", .num 2)]])], cexP2] := by
  have hpos : (flatten_json [cexP1, cexP2]).map Prod.snd
      = .ok [[("Type", .s "Continuous"),
              ("Data", .recs [[("x", .num 1)], [("x", .num 2)]])], cexP2] := rfl
  refine ⟨?_, hpos⟩
  intro h
  rw [hpos] at h
  have h2 : [[("Type", PVal.s "Continuous"),
              ("Data", PVal.recs [[("x", Cell.num 1)], [("x", Cell.num 2)]])], cexP2]
      = [cexP1, cexP2] := by injection h
  exact absurd h2 (by decide)

/-- Claim C5, amended: the categorical encoder operates on a deep copy
and leaves its input unchanged, and `flatten_json` on a single payload
leaves its input unchanged, but `flatten_json` on two or more payloads
mutates the caller's first payload in place, replacing its `Data` with
the concatenation of every payload's `Data`; the remaining input
payloads are unchanged. -/
theorem core_frame_effects (df : DataFrame) (d p : PyDict) (ps : List PyDict)
    (a : List (List (String × Cell)))
    (hp : dictGet p "Data" = some (.recs a))
    (hps : ∀ x ∈ ps, ∃ bs, dictGet x "Data" = some (PVal.recs bs))
    (hne : ps ≠ []) :
    (convert_categorical_independent df).2.2 = df ∧
    flatten_json [d] = .ok (d, [d]) ∧
    flatten_json (p :: ps)
      = .ok (dictSet p "Data" (.recs (a ++ (ps.map getData).flatten)),
             dictSet p "Data" (.recs (a ++ (ps.map getData).flatten)) :: ps) := by
  refine ⟨rfl, rfl, ?_⟩
  cases ps with
  | nil => exact absurd rfl hne
  | cons q qs =>
    have hloop := flattenLoop_eq (q :: qs) p a hp hps (by simp)
    show (flattenLoop p (q :: qs)).map (fun r => (r, r :: q :: qs)) = _
    rw [hloop]
    rfl

/-- The frame-effect facts at concrete inputs. -/
theorem core_frame_effects_witness :
    (convert_categorical_independent dfNumeric).2.2 = dfNumeric ∧
    flatten_json [cexP2] = .ok (cexP2, [cexP2]) ∧
    flatten_json (cexP1 :: [cexP2])
      = .ok (dictSet cexP1 "Data"
               (.recs ([[("x", .num 1)]] ++ ([cexP2].map getData).flatten)),
             dictSet cexP1 "Data"
               (.recs ([[("x", .num 1)]] ++ ([cexP2].map getData).flatten)) :: [cexP2]) :=
  core_frame_effects dfNumeric cexP2 cexP1 [cexP2] [[("x", .num 1)]] rfl
    (by intro x hx
        simp only [List.mem_singleton] at hx
        subst hx
        exact ⟨[[("x", .num 2)]], rfl⟩)
    (by simp)

/-- Claim C6, counterexample: on a table lacking an `errors` column but
with the unsupported error type `"FOO"`, `create_insights` fails with
the `UnsupportedErrorType` assertion, not with a missing-column
`KeyError` naming `errors` — the error-type check runs first. -/
theorem create_insights_missing_errors_cex :
    create_insights dfNoErrors (.scalar (.str "groupvar")) "FOO"
      = .error (.assertionError create_insights_assert_msg) ∧
    Err.assertionError create_insights_assert_msg ≠ Err.keyError "errors" :=
  ⟨rfl, by decide⟩

/-- Claim C6, amended: for every input table lacking an `errors` column
and every supported error type (in {MSE, RMSE, MAE, RAW}),
`create_insights` fails with a `KeyError` whose text contains the
literal missing column name `errors`; for unsupported error types the
`UnsupportedErrorType` assertion fires first instead. -/
theorem create_insights_missing_errors_keyerror (df : DataFrame) (gv : GVar)
    (et : String)
    (het : (["MSE", "RMSE", "MAE", "RAW"].contains et) = true)
    (hmiss : df.getCol "errors" = none) :
    create_insights df gv et = .error (.keyError "errors") ∧
    "errors".toList <:+: (Err.keyError "errors").text.toList := by
  refine ⟨?_, by decide⟩
  have h4 : et = "MSE" ∨ et = "RMSE" ∨ et = "MAE" ∨ et = "RAW" := by
    simpa using het
  rcases h4 with h | h | h | h <;> subst h <;> simp [create_insights, hmiss] <;> rfl

/-- The missing-column failure at the test frame with a `random` column. -/
theorem create_insights_missing_errors_keyerror_witness :
    create_insights dfNoErrors (.scalar (.str "groupvar")) "MSE"
      = .error (.keyError "errors") ∧
    "errors".toList <:+: (Err.keyError "errors").text.toList :=
  create_insights_missing_errors_keyerror dfNoErrors (.scalar (.str "groupvar"))
    "MSE" (by decide) (by decide)

/-- Claim C7: for every group whose `errors` column holds `n` numeric
residual values (in a rectangular frame with scalar name) and every
supported error type, `create_insights` returns a table of exactly
1 row and 4 columns `{groupByValue, groupByVarName, <error_type>,
Total}` with `Total = n` held as a float cell (`Cell.num`), not an
integer cell.  The numeric restriction matches the source, whose
eagerly-evaluated `errors ** 2` raises `TypeError` on a non-numeric
column before any table is built. -/
theorem create_insights_output_shape (df : DataFrame) (nc gc : Cell)
    (et : String) (e : List ℚ)
    (hname : df.name = .scalar nc)
    (het : (["MSE", "RMSE", "MAE", "RAW"].contains et) = true)
    (he : df.getCol "errors" = some (e.map Cell.num)) (hwf : df.WF) :
    ∃ c d, create_insights df (.scalar gc) et = .ok d ∧
      d = { name := .scalar .null,
            cols := [("groupByValue", [nc]), ("groupByVarName", [gc]),
                     (et, [c]), ("Total", [Cell.num e.length])] } ∧
      d.shape0 = 1 ∧ d.cols.length = 4 ∧
      d.colNames = ["groupByValue", "groupByVarName", et, "Total"] ∧
      (∀ p ∈ d.cols, p.2.length = 1) ∧
      (∀ z : ℤ, Cell.num (e.length : ℚ) ≠ Cell.int z) := by
  have hs : df.shape0 = e.length := by
    have h := getCol_length df "errors" (e.map Cell.num) hwf he
    simpa using h.symm
  have heval := create_insights_eval df nc gc et (e.map Cell.num) hname he het
  rw [hs] at heval
  rw [show (e.map Cell.num).length = e.length from by simp] at heval
  refine ⟨_, _, heval, rfl, ?_, ?_, ?_, ?_, ?_⟩
  · simp [DataFrame.shape0]
  · simp
  · simp [DataFrame.colNames]
  · intro p hp
    simp at hp
    rcases hp with h | h | h | h <;> simp [h]
  · intro z
    simp

/-- The shape claim at the test frame with numeric errors `0,1,2,3`
and `MSE`. -/
theorem create_insights_output_shape_witness :
    ∃ c d, create_insights dfT (.scalar (.str "groupvar")) "MSE" = .ok d ∧
      d = { name := .scalar .null,
            cols := [("groupByValue", [.str "testname"]),
                     ("groupByVarName", [.str "groupvar"]),
                     ("MSE", [c]),
                     ("Total", [Cell.num ([0, 1, 2, 3] : List ℚ).length])] } ∧
      d.shape0 = 1 ∧ d.cols.length = 4 ∧
      d.colNames = ["groupByValue", "groupByVarName", "MSE", "Total"] ∧
      (∀ p ∈ d.cols, p.2.length = 1) ∧
      (∀ z : ℤ, Cell.num (([0, 1, 2, 3] : List ℚ).length : ℚ) ≠ Cell.int z) :=
  create_insights_output_shape dfT (.str "testname") (.str "groupvar") "MSE"
    [0, 1, 2, 3] rfl (by decide) (by decide) (by decide)

/-- Claim C8, counterexample: for the unsupported error type `"FOO"`
the assertion message lists the valid error types but does not contain
the offending value `"FOO"`. -/
theorem create_insights_bad_error_type_cex :
    create_insights dfWithErrors (.scalar (.str "groupvar")) "FOO"
      = .error (.assertionError create_insights_assert_msg) ∧
    ¬ ("FOO".toList <:+: create_insights_assert_msg.toList) :=
  ⟨rfl, by decide⟩

/-- Claim C8, amended: for every error type outside the closed set
{MSE, RMSE, MAE, RAW} and every input table, `create_insights` fails
with the `UnsupportedErrorType` assertion, whose message names the
valid error types but does not include the offending value. -/
theorem create_insights_bad_error_type_assert (df : DataFrame) (gv : GVar)
    (et : String)
    (het : (["MSE", "RMSE", "MAE", "RAW"].contains et) = false) :
    create_insights df gv et = .error (.assertionError create_insights_assert_msg) ∧
    ("MAE".toList <:+: create_insights_assert_msg.toList) ∧
    ("MSE".toList <:+: create_insights_assert_msg.toList) ∧
    ("RMSE".toList <:+: create_insights_assert_msg.toList) ∧
    ("RAW".toList <:+: create_insights_assert_msg.toList) := by
  refine ⟨?_, by decide, by decide, by decide, by decide⟩
  simp only [create_insights, het, Bool.not_false, if_true]
  rfl

/-- The unsupported-error-type failure at a concrete call. -/
theorem create_insights_bad_error_type_assert_witness :
    create_insights dfT (.scalar (.str "groupvar")) "MedianError"
      = .error (.assertionError create_insights_assert_msg) ∧
    ("MAE".toList <:+: create_insights_assert_msg.toList) ∧
    ("MSE".toList <:+: create_insights_assert_msg.toList) ∧
    ("RMSE".toList <:+: create_insights_assert_msg.toList) ∧
    ("RAW".toList <:+: create_insights_assert_msg.toList) :=
  create_insights_bad_error_type_assert dfT (.scalar (.str "groupvar"))
    "MedianError" (by decide)

/-- Claim C9: on a table whose columns are all already numeric (no
object/categorical column), `convert_categorical_independent` returns
an equal table and emits the no-categorical-columns warning; the call
still succeeds. -/
theorem convert_categorical_noop_on_numeric (df : DataFrame)
    (h : ∀ p ∈ df.cols, isObjectCol p.2 = false) :
    (convert_categorical_independent df).1 = df ∧
    (convert_categorical_independent df).2.1 = true := by
  constructor
  · have hmap : df.cols.map
        (fun p => (p.1, if isObjectCol p.2 then catCodes p.2 else p.2)) = df.cols := by
      rw [List.map_congr_left (g := fun p => p) (fun p hp => by simp [h p hp])]
      exact List.map_id df.cols
    cases df with
    | mk nm cs =>
      simp only [convert_categorical_independent] at hmap ⊢
      simp [hmap]
  · simp only [convert_categorical_independent, List.all_eq_true]
    intro p hp
    simp [h p hp]

/-- The encoder no-op at an all-numeric frame. -/
theorem convert_categorical_noop_on_numeric_witness :
    (convert_categorical_independent dfNumeric).1 = dfNumeric ∧
    (convert_categorical_independent dfNumeric).2.1 = true :=
  convert_categorical_noop_on_numeric dfNumeric (by decide)

/-- Claim C10: for every table, incremental value, and variable type in
{Continuous, Categorical, Accuracy, Percentile}, `to_json` with
html type `error` or `percentile` returns a payload whose keys are
exactly `Type` and `Data` — in particular no `Change` key, which is
present exactly for the `sensitivity` html type. -/
theorem to_json_error_payload_keys (df : DataFrame) (vt ht : String) (iv : Cell)
    (hvt : (["Continuous", "Categorical", "Accuracy", "Percentile"].contains vt) = true)
    (hht : ht = "error" ∨ ht = "percentile") :
    ∃ d, to_json df vt ht iv = .ok d ∧ dictKeys d = ["Type", "Data"] ∧
      dictGet d "Change" = none ∧
    ∃ d2, to_json df vt "sensitivity" iv = .ok d2 ∧
      dictKeys d2 = ["Type", "Change", "Data"] := by
  have h4 : vt = "Continuous" ∨ vt = "Categorical" ∨ vt = "Accuracy" ∨
      vt = "Percentile" := by simpa using hvt
  rcases hht with h | h <;> subst h <;> rcases h4 with h | h | h | h <;> subst h <;>
    exact ⟨_, rfl, rfl, rfl, _, rfl, rfl⟩

/-- The payload-keys claim at a concrete accuracy payload. -/
theorem to_json_error_payload_keys_witness :
    ∃ d, to_json dfCexAcc "Accuracy" "error" Cell.null = .ok d ∧
      dictKeys d = ["Type", "Data"] ∧
      dictGet d "Change" = none ∧
    ∃ d2, to_json dfCexAcc "Accuracy" "sensitivity" Cell.null = .ok d2 ∧
      dictKeys d2 = ["Type", "Change", "Data"] :=
  to_json_error_payload_keys dfCexAcc "Accuracy" "error" Cell.null
    (by decide) (Or.inl rfl)
